import Mathlib

/-!
# fritz-box: challenge-response login of the FritzBox client (`box.go`)

A shallow embedding of `box.go`.

Modelling conventions.

* Go `string` values are modelled by Lean `String`, i.e. by sequences of Unicode
  scalar values (Go strings holding invalid UTF-8 are outside the model).
* `[]rune`, `[]uint16` and `[]byte` are lists of naturals; every narrowing
  conversion (`uint16(v)`, `byte(v)`) is an explicit `%`.
* Functions of the Go standard library used by `box.go` (`utf16.Encode`,
  `binary.LittleEndian.PutUint16`, `md5`, `hex.EncodeToString`,
  `strings.TrimSpace`, `strconv.Itoa`) are modelled by their documented
  behaviour; `http.Get` and `xml.Unmarshal` are parameters of the model.
-/

namespace fritzBox

/-! ## Data model -/

/-- The struct `FritzBox` of `box.go`. -/
structure FritzBox where
  password : String
  username : String
  baseURL : String
  sid : String
deriving DecidableEq

/-- The struct `SessionInfo` of `box.go`. -/
structure SessionInfo where
  SID : String
  Challenge : String
deriving DecidableEq

/-- The function `New` of `box.go`: every field but `password` and `baseURL`
keeps Go's zero value, the empty string. -/
def New (password : String) : FritzBox :=
  { password := password, username := "", baseURL := "http://fritz.box", sid := "" }

/-- The literal `"0000000000000000"` compared against in `login`. -/
def sentinel : String := "0000000000000000"

/-! ## `unicode/utf16` -/

def surr1 : Nat := 0xd800
def surr2 : Nat := 0xdc00
def surr3 : Nat := 0xe000
def surrSelf : Nat := 0x10000
def maxRune : Nat := 0x10FFFF
def replacementChar : Nat := 0xFFFD

/-- The conversion `[]rune(s)` on a valid string: its scalar values. -/
def runes (s : String) : List Int :=
  s.data.map (fun c => (c.toNat : Int))

/-- Go `utf16.EncodeRune` on a rune already known to lie in
`[surrSelf, maxRune]`: `r -= surrSelf; return surr1 + (r>>10)&0x3ff, surr2 + r&0x3ff`. -/
def encodeRune (v : Nat) : Nat × Nat :=
  let r := v - surrSelf
  (surr1 + ((r >>> 10) &&& 0x3ff), surr2 + (r &&& 0x3ff))

/-- One iteration of the loop of Go `utf16.Encode`: the code units appended for
the rune `v` (an `int32`, so possibly negative). -/
def encodeOne (v : Int) : List Nat :=
  if (0 ≤ v ∧ v < surr1) ∨ ((surr3 : Int) ≤ v ∧ v < surrSelf) then
    [v.toNat % 65536]
  else if (surrSelf : Int) ≤ v ∧ v ≤ maxRune then
    let p := encodeRune v.toNat
    [p.1 % 65536, p.2 % 65536]
  else
    [replacementChar % 65536]

/-- Go `utf16.Encode`. -/
def utf16Encode (s : List Int) : List Nat :=
  s.foldl (fun a v => a ++ encodeOne v) []

/-! ## `convertUTF16ToLittleEndianBytes` -/

/-- The call `binary.LittleEndian.PutUint16(b[off:], v)`:
`b[off] = byte(v); b[off+1] = byte(v >> 8)`. -/
def putUint16 (b : List Nat) (off : Nat) (v : Nat) : List Nat :=
  (b.set off (v % 256)).set (off + 1) ((v >>> 8) % 256)

/-- The function `convertUTF16ToLittleEndianBytes` of `box.go`: a zeroed buffer
of `2*len(u)` bytes, then one `PutUint16` per code unit at offset `index*2`. -/
def convertUTF16ToLittleEndianBytes (u : List Nat) : List Nat :=
  let b := List.replicate (2 * u.length) 0
  u.enum.foldl (fun b iv => putUint16 b (iv.1 * 2) iv.2) b

/-! ## `crypto/md5` (RFC 1321) -/

/-- The sine-derived constants of MD5. -/
def md5K : List Nat :=
  [0xd76aa478, 0xe8c7b756, 0x242070db, 0xc1bdceee, 0xf57c0faf, 0x4787c62a, 0xa8304613, 0xfd469501,
   0x698098d8, 0x8b44f7af, 0xffff5bb1, 0x895cd7be, 0x6b901122, 0xfd987193, 0xa679438e, 0x49b40821,
   0xf61e2562, 0xc040b340, 0x265e5a51, 0xe9b6c7aa, 0xd62f105d, 0x02441453, 0xd8a1e681, 0xe7d3fbc8,
   0x21e1cde6, 0xc33707d6, 0xf4d50d87, 0x455a14ed, 0xa9e3e905, 0xfcefa3f8, 0x676f02d9, 0x8d2a4c8a,
   0xfffa3942, 0x8771f681, 0x6d9d6122, 0xfde5380c, 0xa4beea44, 0x4bdecfa9, 0xf6bb4b60, 0xbebfbc70,
   0x289b7ec6, 0xeaa127fa, 0xd4ef3085, 0x04881d05, 0xd9d4d039, 0xe6db99e5, 0x1fa27cf8, 0xc4ac5665,
   0xf4292244, 0x432aff97, 0xab9423a7, 0xfc93a039, 0x655b59c3, 0x8f0ccc92, 0xffeff47d, 0x85845dd1,
   0x6fa87e4f, 0xfe2ce6e0, 0xa3014314, 0x4e0811a1, 0xf7537e82, 0xbd3af235, 0x2ad7d2bb, 0xeb86d391]

/-- The per-step left-rotation amounts of MD5. -/
def md5S : List Nat :=
  [7, 12, 17, 22, 7, 12, 17, 22, 7, 12, 17, 22, 7, 12, 17, 22,
   5, 9, 14, 20, 5, 9, 14, 20, 5, 9, 14, 20, 5, 9, 14, 20,
   4, 11, 16, 23, 4, 11, 16, 23, 4, 11, 16, 23, 4, 11, 16, 23,
   6, 10, 15, 21, 6, 10, 15, 21, 6, 10, 15, 21, 6, 10, 15, 21]

def mask32 : Nat := 0xffffffff

/-- Rotate a 32-bit word left by `s` bits. -/
def rotl32 (x s : Nat) : Nat :=
  ((x <<< s) ||| (x >>> (32 - s))) &&& mask32

/-- The four chaining words `A, B, C, D`. -/
structure Md5State where
  a : Nat
  b : Nat
  c : Nat
  d : Nat
deriving DecidableEq

def md5Init : Md5State :=
  { a := 0x67452301, b := 0xefcdab89, c := 0x98badcfe, d := 0x10325476 }

/-- The little-endian 32-bit word at word index `k` of a block. -/
def wordAt (block : List Nat) (k : Nat) : Nat :=
  block.getD (4 * k) 0 + block.getD (4 * k + 1) 0 * 0x100
    + block.getD (4 * k + 2) 0 * 0x10000 + block.getD (4 * k + 3) 0 * 0x1000000

/-- Step `i` (`0 ≤ i < 64`) of the MD5 compression function. -/
def md5Step (block : List Nat) (st : Md5State) (i : Nat) : Md5State :=
  let notB := st.b ^^^ mask32
  let notD := st.d ^^^ mask32
  let f :=
    if i < 16 then (st.b &&& st.c) ||| (notB &&& st.d)
    else if i < 32 then (st.b &&& st.d) ||| (st.c &&& notD)
    else if i < 48 then st.b ^^^ st.c ^^^ st.d
    else st.c ^^^ (st.b ||| notD)
  let g :=
    if i < 16 then i
    else if i < 32 then (5 * i + 1) % 16
    else if i < 48 then (3 * i + 5) % 16
    else (7 * i) % 16
  let sum := (st.a + f + md5K.getD i 0 + wordAt block g) % 0x100000000
  { a := st.d, b := (st.b + rotl32 sum (md5S.getD i 0)) % 0x100000000, c := st.b, d := st.c }

/-- The MD5 compression of one 64-byte block into the chaining state. -/
def md5Block (st : Md5State) (block : List Nat) : Md5State :=
  let r := (List.range 64).foldl (md5Step block) st
  { a := (st.a + r.a) % 0x100000000, b := (st.b + r.b) % 0x100000000,
    c := (st.c + r.c) % 0x100000000, d := (st.d + r.d) % 0x100000000 }

/-- The `n` low bytes of `x`, least significant first. -/
def leBytes : Nat → Nat → List Nat
  | 0, _ => []
  | n + 1, x => (x % 256) :: leBytes n (x / 256)

/-- MD5 padding: a `0x80` byte, zeros up to 56 modulo 64, then the bit length as
a 64-bit little-endian integer. -/
def md5Pad (msg : List Nat) : List Nat :=
  let n := msg.length
  msg ++ [0x80] ++ List.replicate ((119 - n % 64) % 64) 0 ++ leBytes 8 ((8 * n) % 2 ^ 64)

/-- The MD5 digest (16 bytes) of a byte sequence: what `h := md5.New();
h.Write(b); h.Sum(nil)` returns. -/
def md5Sum (msg : List Nat) : List Nat :=
  let p := md5Pad msg
  let st := (List.range (p.length / 64)).foldl
    (fun st i => md5Block st ((p.drop (64 * i)).take 64)) md5Init
  leBytes 4 st.a ++ leBytes 4 st.b ++ leBytes 4 st.c ++ leBytes 4 st.d

/-! ## `encoding/hex` -/

/-- The table `"0123456789abcdef"` of Go `encoding/hex`. -/
def hextable : List Char := "0123456789abcdef".data

/-- The two lowercase hexadecimal digits of the byte `b`. -/
def hexByte (b : Nat) : List Char :=
  [hextable.getD ((b % 256) / 16) '0', hextable.getD (b % 16) '0']

/-- Go `hex.EncodeToString`. -/
def hexEncodeToString (bs : List Nat) : String :=
  String.mk (bs.flatMap hexByte)

/-! ## `solveChallenge` -/

/-- The function `solveChallenge` of `box.go`. -/
def solveChallenge (s : SessionInfo) (password : String) : String :=
  let codes := utf16Encode (runes (s.Challenge ++ "-" ++ password))
  let b := convertUTF16ToLittleEndianBytes codes
  let x := s.Challenge ++ "-" ++ hexEncodeToString (md5Sum b)
  x

/-! ## Reference functions for the byte encoding

`specCodeUnits`, `utf16le` and `lowercaseHex` follow the wording of the
specification, not the code; the code is compared with them below.
`littleEndianUnits` and `utf16Decode` are the decoder of the round trip. -/

/-- The UTF-16 code units of one scalar value: the value itself up to U+FFFF,
a surrogate pair above. -/
def specCodeUnits (c : Char) : List Nat :=
  if c.toNat ≤ 0xFFFF then [c.toNat]
  else [0xD800 + (c.toNat - 0x10000) / 0x400, 0xDC00 + (c.toNat - 0x10000) % 0x400]

/-- UTF-16 little-endian encoding of a string: each code unit of each scalar
value, low byte first. -/
def utf16le (s : String) : List Nat :=
  s.data.flatMap (fun c => (specCodeUnits c).flatMap (fun u => [u % 256, u / 256]))

/-- Lowercase hexadecimal rendering of a byte sequence, two digits per byte. -/
def lowercaseHex (bs : List Nat) : String :=
  String.mk (bs.flatMap (fun b => [Nat.digitChar (b % 256 / 16), Nat.digitChar (b % 16)]))

/-- Pairing bytes as little-endian 16-bit units (a trailing odd byte is dropped). -/
def littleEndianUnits : List Nat → List Nat
  | lo :: hi :: rest => (lo + 256 * hi) :: littleEndianUnits rest
  | _ => []

/-- Go `utf16.DecodeRune` on a pair already known to be a valid surrogate pair:
`(r1-surr1)<<10 | (r2 - surr2) + surrSelf`. -/
def decodeRune (r1 r2 : Nat) : Nat :=
  (((r1 - surr1) <<< 10) ||| (r2 - surr2)) + surrSelf

/-- Go `utf16.Decode`: a unit outside the surrogate range is a rune, a high
surrogate followed by a low surrogate is one rune, anything else is U+FFFD. -/
def utf16Decode : List Nat → List Int
  | [] => []
  | [r] => if r < surr1 ∨ surr3 ≤ r then [(r : Int)] else [(replacementChar : Int)]
  | r :: r2 :: rest =>
    if r < surr1 ∨ surr3 ≤ r then (r : Int) :: utf16Decode (r2 :: rest)
    else if surr1 ≤ r ∧ r < surr2 ∧ surr2 ≤ r2 ∧ r2 < surr3 then
      (decodeRune r r2 : Int) :: utf16Decode rest
    else (replacementChar : Int) :: utf16Decode (r2 :: rest)

/-! ## The HTTP transport and the XML decoder -/

/-- What `box.go` observes of a `*http.Response`: the status code and what
`ioutil.ReadAll(resp.Body)` returns, a read error or the whole content. -/
structure Response where
  StatusCode : Int
  Body : Except String String

/-- The environment of a client. `get` is `http.Get`: from the state of the
outside world and a URL, an error or a response, and the next state of the
world. `unmarshal` is `xml.Unmarshal(buffer, &SessionInfo{})`: an error or the
filled struct. Go `error` values are represented by their message. -/
structure Env (σ : Type) where
  get : σ → String → Except String Response × σ
  unmarshal : String → Except String SessionInfo

/-- Go `strconv.Itoa`. -/
def itoa (n : Int) : String := toString n

/-- The message of the error built at lines 81, 105 and 135 of `box.go`. -/
def statusError (code : Int) : String :=
  "Expected HTTP Status Code 200, but got: " ++ itoa code

/-- The function `parseLoginResponse` of `box.go`. -/
def parseLoginResponse {σ : Type} (env : Env σ) (body : Except String String) :
    Except String SessionInfo :=
  match body with
  | .error err => .error err
  | .ok buffer =>
    match env.unmarshal buffer with
    | .error err => .error err
    | .ok s => .ok s

/-! ## `login` -/

/-- The outcome of a call of `login`: the returned error (`none` for `nil`), the
struct behind the pointer receiver after the call, the state of the world after
the call, and the URLs handed to `http.Get`, in order. -/
structure LoginResult (σ : Type) where
  err : Option String
  f : FritzBox
  world : σ
  urls : List String

/-- The URL of the first request of `login`. -/
def sidURL (f : FritzBox) : String :=
  f.baseURL ++ "/login_sid.lua?sid=" ++ f.sid

/-- The URL of the second request of `login`. -/
def responseURL (f : FritzBox) (response : String) : String :=
  f.baseURL ++ "/login_sid.lua?response=" ++ response

/-- The method `(*FritzBox).login` of `box.go`. -/
def login {σ : Type} (env : Env σ) (f : FritzBox) (w : σ) : LoginResult σ :=
  match env.get w (sidURL f) with
  | (.error err, w1) => { err := some err, f := f, world := w1, urls := [sidURL f] }
  | (.ok resp, w1) =>
    if resp.StatusCode ≠ 200 then
      { err := some (statusError resp.StatusCode), f := f, world := w1, urls := [sidURL f] }
    else
      match parseLoginResponse env resp.Body with
      | .error err => { err := some err, f := f, world := w1, urls := [sidURL f] }
      | .ok session =>
        if session.SID ≠ "0000000000000000" then
          { err := none, f := { f with sid := session.SID }, world := w1, urls := [sidURL f] }
        else
          let response := solveChallenge session f.password
          match env.get w1 (responseURL f response) with
          | (.error err, w2) =>
            { err := some err, f := f, world := w2,
              urls := [sidURL f, responseURL f response] }
          | (.ok resp2, w2) =>
            if resp2.StatusCode ≠ 200 then
              { err := some (statusError resp2.StatusCode), f := f, world := w2,
                urls := [sidURL f, responseURL f response] }
            else
              match parseLoginResponse env resp2.Body with
              | .error err =>
                { err := some err, f := f, world := w2,
                  urls := [sidURL f, responseURL f response] }
              | .ok newSessionInfo =>
                { err := none, f := { f with sid := newSessionInfo.SID }, world := w2,
                  urls := [sidURL f, responseURL f response] }

/-- The client after `n` consecutive calls of `login`, each starting in the
world the previous one left. -/
def loginTimes {σ : Type} (env : Env σ) : Nat → FritzBox → σ → FritzBox × σ
  | 0, f, w => (f, w)
  | n + 1, f, w => loginTimes env n (login env f w).f (login env f w).world

/-! ## `request` -/

/-- Go `unicode.IsSpace`. -/
def isSpace (c : Char) : Bool :=
  let n := c.toNat
  (0x09 ≤ n && n ≤ 0x0D) || n == 0x20 || n == 0x85 || n == 0xA0 || n == 0x1680
    || (0x2000 ≤ n && n ≤ 0x200A) || n == 0x2028 || n == 0x2029 || n == 0x202F
    || n == 0x205F || n == 0x3000

/-- Go `strings.TrimSpace`: leading and trailing white space removed. -/
def trimSpace (s : String) : String :=
  String.mk ((s.data.dropWhile isSpace).reverse.dropWhile isSpace).reverse

/-- The outcome of a call of `request`: the two returned values, the callee's
copy `f` of the receiver as it is when the call returns, the state of the world
and the URLs handed to `http.Get`, in order. -/
structure RequestResult (σ : Type) where
  value : String
  err : Option String
  receiver : FritzBox
  world : σ
  urls : List String

/-- The URL of the command request of `request`. -/
def commandURL (f : FritzBox) (command ain : String) : String :=
  f.baseURL ++ "/webservices/homeautoswitch.lua?sid=" ++ f.sid ++ "&ain=" ++ ain
    ++ "&switchcmd=" ++ command

/-- The method `(FritzBox).request` of `box.go`, run on the copy `f` of the
receiver that the call makes. -/
def request {σ : Type} (env : Env σ) (f : FritzBox) (command ain : String) (w : σ) :
    RequestResult σ :=
  let l := login env f w
  match l.err with
  | some err => { value := "", err := some err, receiver := l.f, world := l.world, urls := l.urls }
  | none =>
    let url := commandURL l.f command ain
    match env.get l.world url with
    | (.error err, w3) =>
      { value := "", err := some err, receiver := l.f, world := w3, urls := l.urls ++ [url] }
    | (.ok resp, w3) =>
      if resp.StatusCode ≠ 200 then
        { value := "", err := some (statusError resp.StatusCode), receiver := l.f, world := w3,
          urls := l.urls ++ [url] }
      else
        match resp.Body with
        | .error err =>
          { value := "", err := some err, receiver := l.f, world := w3, urls := l.urls ++ [url] }
        | .ok r =>
          let body := trimSpace r
          if body = "inval" then
            { value := "", err := some "invalid value", receiver := l.f, world := w3,
              urls := l.urls ++ [url] }
          else
            { value := body, err := none, receiver := l.f, world := w3,
              urls := l.urls ++ [url] }

/-- A call `c.request(command, ain)` as its caller sees it. The receiver of
`request` is a value (`func (f FritzBox) request`), so Go copies `c` into the
callee and the caller keeps `c` as it was: the first component is the caller's
struct after the call, the second the outcome of the call. -/
def callRequest {σ : Type} (env : Env σ) (c : FritzBox) (command ain : String) (w : σ) :
    FritzBox × RequestResult σ :=
  (c, request env c command ain w)

/-- A call `c.login()` as its caller sees it. The receiver of `login` is a
pointer (`func (f *FritzBox) login`), so the caller's struct after the call is
the one the callee wrote to. -/
def callLogin {σ : Type} (env : Env σ) (c : FritzBox) (w : σ) : FritzBox × LoginResult σ :=
  ((login env c w).f, login env c w)

/-! ## A scripted device, for concrete runs -/

/-- A transport that answers the successive calls of `http.Get` with the
successive entries of a script, whatever the URL, and fails once the script is
exhausted. -/
def scriptedGet (w : List (Except String Response)) (_url : String) :
    Except String Response × List (Except String Response) :=
  match w with
  | [] => (.error "connection refused", [])
  | r :: rest => (r, rest)

/-- A session-info document as the device sends it. -/
def sessionDoc (sid challenge : String) : String :=
  "<SessionInfo><SID>" ++ sid ++ "</SID><Challenge>" ++ challenge ++ "</Challenge></SessionInfo>"

/-- The value of `xml.Unmarshal` on the documents used in the concrete runs
below; every other input is rejected. -/
def sampleUnmarshal (buffer : String) : Except String SessionInfo :=
  if buffer = sessionDoc "0000000000000000" "1234567z" then
    .ok { SID := "0000000000000000", Challenge := "1234567z" }
  else if buffer = sessionDoc "9c1a2b3c4d5e6f70" "1234567z" then
    .ok { SID := "9c1a2b3c4d5e6f70", Challenge := "1234567z" }
  else .error "EOF"

/-- The scripted environment. -/
def scriptedEnv : Env (List (Except String Response)) :=
  { get := scriptedGet, unmarshal := sampleUnmarshal }

/-- The value of `xml.Unmarshal` on a well-formed document whose `SID` element
is not a session id; every other input is rejected. -/
def oddUnmarshal (buffer : String) : Except String SessionInfo :=
  if buffer = sessionDoc "not-a-session-id" "1234567z" then
    .ok { SID := "not-a-session-id", Challenge := "1234567z" }
  else .error "EOF"

/-- The scripted environment of a device that sends such a document. -/
def oddEnv : Env (List (Except String Response)) :=
  { get := scriptedGet, unmarshal := oddUnmarshal }

/-- A status-200 response carrying a session-info document. -/
def sessionResponse (sid : String) : Except String Response :=
  .ok { StatusCode := 200, Body := .ok (sessionDoc sid "1234567z") }

/-- A response with the given status and plain-text body. -/
def textResponse (status : Int) (body : String) : Except String Response :=
  .ok { StatusCode := status, Body := .ok body }

/-- A string of exactly 16 hexadecimal characters. -/
def isSessionToken (s : String) : Prop :=
  s.length = 16 ∧ ∀ c ∈ s.data, c ∈ "0123456789abcdefABCDEF".data

instance (s : String) : Decidable (isSessionToken s) := by
  unfold isSessionToken; infer_instance

/-- The invariant the specification states for the stored session id: empty, or
16 hexadecimal characters other than the sentinel. -/
def specSidInvariant (sid : String) : Prop :=
  sid = "" ∨ (isSessionToken sid ∧ sid ≠ "0000000000000000")

instance (s : String) : Decidable (specSidInvariant s) := by
  unfold specSidInvariant; infer_instance

/-- The two bytes `PutUint16` writes for one code unit. -/
def unitBytes (v : Nat) : List Nat := [v % 256, (v >>> 8) % 256]

/-- The code points with the Unicode property `White_Space`. -/
def whiteSpaceCodePoints : List Nat :=
  [0x0009, 0x000A, 0x000B, 0x000C, 0x000D, 0x0020, 0x0085, 0x00A0, 0x1680,
   0x2000, 0x2001, 0x2002, 0x2003, 0x2004, 0x2005, 0x2006, 0x2007, 0x2008, 0x2009, 0x200A,
   0x2028, 0x2029, 0x202F, 0x205F, 0x3000]

/-- A white-space character. -/
def IsWhiteSpace (c : Char) : Prop := c.toNat ∈ whiteSpaceCodePoints

instance (c : Char) : Decidable (IsWhiteSpace c) := by
  unfold IsWhiteSpace; infer_instance

/-- The string `t` is the string `r` trimmed of surrounding white space: `r` is
`t` between two runs of white space, and `t` neither starts nor ends with a
white-space character. Written from the words of the specification. -/
def TrimmedOf (r t : String) : Prop :=
  ∃ pre post : List Char, r.data = pre ++ t.data ++ post ∧
    (∀ c ∈ pre, IsWhiteSpace c) ∧ (∀ c ∈ post, IsWhiteSpace c) ∧
    (∀ c, t.data.head? = some c → ¬ IsWhiteSpace c) ∧
    (∀ c, t.data.getLast? = some c → ¬ IsWhiteSpace c)

/-- The call of `login` on the client `f` in the world `w` receives a first
session-info response with status 200 that parses to `session`, and leaves the
world `w1`. -/
def FirstAnswer {σ : Type} (env : Env σ) (f : FritzBox) (w : σ) (session : SessionInfo)
    (w1 : σ) : Prop :=
  ∃ resp : Response, env.get w (sidURL f) = (.ok resp, w1) ∧ resp.StatusCode = 200 ∧
    parseLoginResponse env resp.Body = .ok session

/-- The call of `login` on the client `f` in the world `w` receives the sentinel
in its first session-info response and then a second session-info response with
status 200 that parses to `s2`. -/
def SecondAnswer {σ : Type} (env : Env σ) (f : FritzBox) (w : σ) (s2 : SessionInfo) : Prop :=
  ∃ (session : SessionInfo) (w1 : σ) (resp2 : Response) (w2 : σ),
    FirstAnswer env f w session w1 ∧ session.SID = "0000000000000000" ∧
    env.get w1 (responseURL f (solveChallenge session f.password)) = (.ok resp2, w2) ∧
    resp2.StatusCode = 200 ∧ parseLoginResponse env resp2.Body = .ok s2

/-- The string `sid` is the `SID` of a session-info response that the call of
`login` on the client `f` in the world `w` receives (with status 200, parsed). -/
def ReceivedSID {σ : Type} (env : Env σ) (f : FritzBox) (w : σ) (sid : String) : Prop :=
  (∃ (session : SessionInfo) (w1 : σ), FirstAnswer env f w session w1 ∧ session.SID = sid) ∨
  (∃ s2 : SessionInfo, SecondAnswer env f w s2 ∧ s2.SID = sid)

/-- The string `sid` is what the call of `login` on the client `f` in the world
`w` stores: the `SID` of its first response when that is not the sentinel
(line 92), or the `SID` of its second response (line 114). -/
def StoredBy {σ : Type} (env : Env σ) (f : FritzBox) (w : σ) (sid : String) : Prop :=
  (∃ (session : SessionInfo) (w1 : σ), FirstAnswer env f w session w1 ∧
    session.SID ≠ "0000000000000000" ∧ session.SID = sid) ∨
  (∃ s2 : SessionInfo, SecondAnswer env f w s2 ∧ s2.SID = sid)

/-! ## Lemmas on the byte encoding -/

theorem foldl_append_flatMap {α β : Type} (g : α → List β) (s : List α) (acc : List β) :
    s.foldl (fun a v => a ++ g v) acc = acc ++ s.flatMap g := by
  induction s generalizing acc with
  | nil => simp
  | cons v rest ih => simp [ih, List.append_assoc]

theorem utf16Encode_eq_flatMap (s : List Int) : utf16Encode s = s.flatMap encodeOne := by
  simp [utf16Encode, foldl_append_flatMap]

theorem putUint16_fresh (done rest : List Nat) (k v : Nat) (h : done.length = k * 2) :
    putUint16 (done ++ 0 :: 0 :: rest) (k * 2) v = (done ++ unitBytes v) ++ rest := by
  simp [putUint16, unitBytes, List.set_append, h]

theorem convert_loop (u : List Nat) : ∀ (k : Nat) (done : List Nat), done.length = k * 2 →
    (u.enumFrom k).foldl (fun b iv => putUint16 b (iv.1 * 2) iv.2)
      (done ++ List.replicate (2 * u.length) 0) = done ++ u.flatMap unitBytes := by
  induction u with
  | nil => intro k done _; simp
  | cons v rest ih =>
    intro k done h
    have hrep : List.replicate (2 * (v :: rest).length) 0
        = 0 :: 0 :: List.replicate (2 * rest.length) (0 : Nat) := by
      simp [Nat.mul_add, List.replicate_succ]
    rw [hrep, List.enumFrom_cons, List.foldl_cons]
    simp only []
    rw [putUint16_fresh done _ k v h, ih (k + 1) (done ++ unitBytes v) (by simp [unitBytes, h]; omega)]
    simp [List.append_assoc]

theorem convert_eq_flatMap (u : List Nat) :
    convertUTF16ToLittleEndianBytes u = u.flatMap unitBytes := by
  have := convert_loop u 0 [] rfl
  simpa [convertUTF16ToLittleEndianBytes, List.enum] using this

theorem char_scalar (c : Char) :
    c.toNat < 0xd800 ∨ (0xdfff < c.toNat ∧ c.toNat < 0x110000) := c.valid

theorem encodeRune_eq (v : Nat) :
    encodeRune v = (0xd800 + (v - 0x10000) / 1024 % 1024, 0xdc00 + (v - 0x10000) % 1024) := by
  have h : (0x3ff : Nat) = 2 ^ 10 - 1 := by norm_num
  simp only [encodeRune, surr1, surr2, surrSelf, h, Nat.and_pow_two_sub_one_eq_mod,
    Nat.shiftRight_eq_div_pow]

theorem encodeOne_char (c : Char) : encodeOne (c.toNat : Int) = specCodeUnits c := by
  have hc := char_scalar c
  unfold encodeOne specCodeUnits
  simp only [surr1, surr3, surrSelf, maxRune, Int.toNat_ofNat, encodeRune_eq]
  by_cases h1 : c.toNat ≤ 0xFFFF
  · have : (0 ≤ (c.toNat : Int) ∧ (c.toNat : Int) < (0xd800 : Nat)) ∨
        (((0xe000 : Nat) : Int) ≤ (c.toNat : Int) ∧ (c.toNat : Int) < (0x10000 : Nat)) := by omega
    rw [if_pos this, if_pos h1]
    have e0 : c.toNat % 65536 = c.toNat := by omega
    rw [e0]
  · have hn : ¬ ((0 ≤ (c.toNat : Int) ∧ (c.toNat : Int) < (0xd800 : Nat)) ∨
        (((0xe000 : Nat) : Int) ≤ (c.toNat : Int) ∧ (c.toNat : Int) < (0x10000 : Nat))) := by omega
    have hp : ((0x10000 : Nat) : Int) ≤ (c.toNat : Int) ∧ (c.toNat : Int) ≤ (0x10FFFF : Nat) := by
      omega
    rw [if_neg hn, if_pos hp, if_neg h1]
    have e1 : (0xd800 + (c.toNat - 0x10000) / 1024 % 1024) % 65536
        = 0xD800 + (c.toNat - 0x10000) / 0x400 := by omega
    have e2 : (0xdc00 + (c.toNat - 0x10000) % 1024) % 65536
        = 0xDC00 + (c.toNat - 0x10000) % 0x400 := by omega
    show [_, _] = [_, _]
    rw [e1, e2]

theorem specCodeUnits_lt (c : Char) : ∀ u ∈ specCodeUnits c, u < 65536 := by
  have hc := char_scalar c
  intro u hu
  unfold specCodeUnits at hu
  split at hu
  · simp at hu; omega
  · simp at hu; omega

theorem unitBytes_of_lt (u : Nat) (h : u < 65536) : unitBytes u = [u % 256, u / 256] := by
  simp only [unitBytes, Nat.shiftRight_eq_div_pow]
  congr 1; congr 1; omega

theorem flatMap_congr_mem {α β : Type} (l : List α) (g h : α → List β)
    (e : ∀ x ∈ l, g x = h x) : l.flatMap g = l.flatMap h := by
  induction l with
  | nil => rfl
  | cons a rest ih =>
    simp only [List.flatMap_cons]
    rw [e a (by simp), ih (fun x hx => e x (by simp [hx]))]

/-- The bytes `solveChallenge` hashes are the UTF-16LE encoding of the string. -/
theorem bytes_eq_utf16le (s : String) :
    convertUTF16ToLittleEndianBytes (utf16Encode (runes s)) = utf16le s := by
  rw [convert_eq_flatMap, utf16Encode_eq_flatMap]
  unfold runes utf16le
  induction s.data with
  | nil => rfl
  | cons c rest ih =>
    simp only [List.map_cons, List.flatMap_cons, List.flatMap_append, ih, encodeOne_char]
    congr 1
    exact flatMap_congr_mem _ _ _ (fun u hu => unitBytes_of_lt u (specCodeUnits_lt c u hu))

theorem littleEndianUnits_unitBytes (u : List Nat) (h : ∀ v ∈ u, v < 65536) :
    littleEndianUnits (u.flatMap unitBytes) = u := by
  induction u with
  | nil => rfl
  | cons v rest ih =>
    have hv : v < 65536 := h v (by simp)
    have e : v % 256 + 256 * ((v >>> 8) % 256) = v := by
      rw [Nat.shiftRight_eq_div_pow]; omega
    rw [List.flatMap_cons]
    show (v % 256 + 256 * ((v >>> 8) % 256)) :: littleEndianUnits (rest.flatMap unitBytes) = _
    rw [ih (fun x hx => h x (by simp [hx])), e]

theorem utf16Decode_cons_bmp (r : Nat) (rest : List Nat) (h : r < surr1 ∨ surr3 ≤ r) :
    utf16Decode (r :: rest) = (r : Int) :: utf16Decode rest := by
  cases rest with
  | nil => simp [utf16Decode, h]
  | cons r2 rest2 => simp [utf16Decode, h]

theorem utf16Decode_cons_pair (r r2 : Nat) (rest : List Nat)
    (h : surr1 ≤ r ∧ r < surr2 ∧ surr2 ≤ r2 ∧ r2 < surr3) :
    utf16Decode (r :: r2 :: rest) = (decodeRune r r2 : Int) :: utf16Decode rest := by
  have hn : ¬ (r < surr1 ∨ surr3 ≤ r) := by
    simp only [surr1, surr2, surr3] at h ⊢; omega
  simp [utf16Decode, hn, h]

theorem decodeRune_pair (a b : Nat) (hb : b < 1024) :
    decodeRune (0xd800 + a) (0xdc00 + b) = a * 1024 + b + 0x10000 := by
  have hb2 : b < 2 ^ 10 := by omega
  have := Nat.mul_add_lt_is_or hb2 a
  simp only [decodeRune, surr1, surr2, surrSelf, Nat.add_sub_cancel_left, Nat.shiftLeft_eq]
  rw [Nat.mul_comm a (2 ^ 10), ← this]

theorem utf16Decode_specCodeUnits (cs : List Char) :
    utf16Decode (cs.flatMap specCodeUnits) = cs.map (fun c => (c.toNat : Int)) := by
  induction cs with
  | nil => rfl
  | cons c rest ih =>
    have hc := char_scalar c
    rw [List.flatMap_cons, List.map_cons]
    by_cases h1 : c.toNat ≤ 0xFFFF
    · have e : specCodeUnits c = [c.toNat] := by simp [specCodeUnits, h1]
      rw [e, List.singleton_append,
        utf16Decode_cons_bmp _ _ (by simp only [surr1, surr3]; omega), ih]
    · have e : specCodeUnits c
          = [0xd800 + (c.toNat - 0x10000) / 0x400, 0xdc00 + (c.toNat - 0x10000) % 0x400] := by
        simp [specCodeUnits, h1]
      have hlt : (c.toNat - 0x10000) % 0x400 < 1024 := by omega
      have hdiv : (c.toNat - 0x10000) / 0x400 < 1024 := by omega
      have hsum : (c.toNat - 0x10000) / 0x400 * 1024 + (c.toNat - 0x10000) % 0x400 + 0x10000
          = c.toNat := by omega
      rw [e, List.cons_append, List.singleton_append,
        utf16Decode_cons_pair _ _ _ (by simp only [surr1, surr2, surr3]; omega),
        decodeRune_pair _ _ hlt, ih, hsum]

theorem encode_units_lt (s : String) : ∀ v ∈ utf16Encode (runes s), v < 65536 := by
  intro v hv
  rw [utf16Encode_eq_flatMap] at hv
  simp only [runes, List.mem_flatMap, List.mem_map] at hv
  obtain ⟨x, ⟨c, _, rfl⟩, hx⟩ := hv
  rw [encodeOne_char] at hx
  exact specCodeUnits_lt c v hx

theorem encode_runes_eq (s : String) :
    utf16Encode (runes s) = s.data.flatMap specCodeUnits := by
  rw [utf16Encode_eq_flatMap]
  unfold runes
  induction s.data with
  | nil => rfl
  | cons c rest ih => simp only [List.map_cons, List.flatMap_cons, ih, encodeOne_char]

theorem length_flatMap_unitBytes (u : List Nat) : (u.flatMap unitBytes).length = 2 * u.length := by
  induction u with
  | nil => rfl
  | cons v rest ih => simp [unitBytes, ih]; omega

theorem getElem?_flatMap_unitBytes (u : List Nat) : ∀ (i : Nat) (h : i < u.length),
    (u.flatMap unitBytes)[2 * i]? = some (u[i] % 256) ∧
    (u.flatMap unitBytes)[2 * i + 1]? = some ((u[i] >>> 8) % 256) := by
  induction u with
  | nil => intro i h; simp at h
  | cons v rest ih =>
    intro i h
    cases i with
    | zero => simp [unitBytes]
    | succ j =>
      have hj : j < rest.length := by simpa using h
      have e1 : 2 * (j + 1) = (2 * j) + 1 + 1 := by omega
      have e2 : 2 * (j + 1) + 1 = (2 * j + 1) + 1 + 1 := by omega
      have := ih j hj
      simp only [List.flatMap_cons, unitBytes, List.cons_append, List.nil_append, e1, e2,
        List.getElem?_cons_succ, List.getElem_cons_succ]
      exact this

/-! ## Lemmas on the digest and its rendering -/

theorem leBytes_length (n x : Nat) : (leBytes n x).length = n := by
  induction n generalizing x with
  | zero => rfl
  | succ k ih => simp [leBytes, ih]

theorem md5Sum_length (msg : List Nat) : (md5Sum msg).length = 16 := by
  simp [md5Sum, leBytes_length]

theorem hextable_getD_mem (n : Nat) : hextable.getD n '0' ∈ hextable := by
  by_cases h : n < 16
  · interval_cases n <;> decide
  · have : hextable.length ≤ n := by
      have : hextable.length = 16 := by decide
      omega
    rw [List.getD_eq_default _ _ this]
    decide

theorem hexByte_eq (b : Nat) :
    hexByte b = [Nat.digitChar (b % 256 / 16), Nat.digitChar (b % 16)] := by
  have h1 : b % 256 / 16 < 16 := by omega
  have h2 : b % 16 < 16 := Nat.mod_lt _ (by decide)
  have key : ∀ n, n < 16 → hextable.getD n '0' = Nat.digitChar n := by
    intro n hn
    interval_cases n <;> rfl
  simp only [hexByte, key _ h1, key _ h2]

theorem hexEncodeToString_eq (bs : List Nat) : hexEncodeToString bs = lowercaseHex bs := by
  unfold hexEncodeToString lowercaseHex
  congr 1
  exact flatMap_congr_mem _ _ _ (fun b _ => hexByte_eq b)

theorem hex_data_length (bs : List Nat) : (bs.flatMap hexByte).length = 2 * bs.length := by
  induction bs with
  | nil => rfl
  | cons v rest ih => simp [hexByte, ih]; omega

theorem hex_data_mem (bs : List Nat) : ∀ c ∈ bs.flatMap hexByte, c ∈ hextable := by
  intro c hc
  simp only [List.mem_flatMap, hexByte, List.mem_cons, List.mem_singleton] at hc
  obtain ⟨b, _, hb⟩ := hc
  rcases hb with rfl | rfl | h
  · exact hextable_getD_mem _
  · exact hextable_getD_mem _
  · simp at h

/-! ## The session handshake -/

theorem login_first_valid {σ : Type} (env : Env σ) (f : FritzBox) (w w1 : σ) (resp : Response)
    (session : SessionInfo)
    (hget : env.get w (sidURL f) = (.ok resp, w1))
    (hstatus : resp.StatusCode = 200)
    (hparse : parseLoginResponse env resp.Body = .ok session)
    (hsid : session.SID ≠ "0000000000000000") :
    login env f w
      = { err := none, f := { f with sid := session.SID }, world := w1, urls := [sidURL f] } := by
  simp [login, hget, hstatus, hparse, hsid]

theorem login_first_sentinel {σ : Type} (env : Env σ) (f : FritzBox) (w w1 : σ) (resp : Response)
    (session : SessionInfo)
    (hget : env.get w (sidURL f) = (.ok resp, w1))
    (hstatus : resp.StatusCode = 200)
    (hparse : parseLoginResponse env resp.Body = .ok session)
    (hsid : session.SID = "0000000000000000") :
    login env f w =
      match env.get w1 (responseURL f (solveChallenge session f.password)) with
      | (.error err, w2) =>
        { err := some err, f := f, world := w2,
          urls := [sidURL f, responseURL f (solveChallenge session f.password)] }
      | (.ok resp2, w2) =>
        if resp2.StatusCode ≠ 200 then
          { err := some (statusError resp2.StatusCode), f := f, world := w2,
            urls := [sidURL f, responseURL f (solveChallenge session f.password)] }
        else
          match parseLoginResponse env resp2.Body with
          | .error err =>
            { err := some err, f := f, world := w2,
              urls := [sidURL f, responseURL f (solveChallenge session f.password)] }
          | .ok newSessionInfo =>
            { err := none, f := { f with sid := newSessionInfo.SID }, world := w2,
              urls := [sidURL f, responseURL f (solveChallenge session f.password)] } := by
  simp [login, hget, hstatus, hparse, hsid]

/-- Whatever the device answers, `login` leaves every field but `sid` alone. -/
theorem login_fields {σ : Type} (env : Env σ) (f : FritzBox) (w : σ) :
    (login env f w).f.password = f.password ∧ (login env f w).f.username = f.username ∧
    (login env f w).f.baseURL = f.baseURL := by
  unfold login
  split
  · simp
  · split
    · simp
    · split
      · simp
      · split
        · simp
        · simp only []
          split
          · simp
          · split
            · simp
            · split <;> simp

/-- A call of `login` that returns an error leaves the struct as it was. -/
theorem login_error_keeps {σ : Type} (env : Env σ) (f : FritzBox) (w : σ) (e : String)
    (h : (login env f w).err = some e) : (login env f w).f = f := by
  unfold login at h ⊢
  split
  · rfl
  · split
    · rfl
    · split
      · rfl
      · split
        · simp_all
        · simp only [] at h ⊢
          split
          · rfl
          · split
            · rfl
            · split
              · rfl
              · simp_all

/-- After a call of `login` the stored `sid` is the one before the call or one
the call stored from a session-info response. -/
theorem login_sid_stored {σ : Type} (env : Env σ) (f : FritzBox) (w : σ) :
    (login env f w).f.sid = f.sid ∨ StoredBy env f w (login env f w).f.sid := by
  unfold login
  split
  · exact Or.inl rfl
  · split
    · exact Or.inl rfl
    · split
      · exact Or.inl rfl
      · rename_i resp w1 hget hst _ session hparse
        have hfirst : FirstAnswer env f w session w1 :=
          ⟨resp, hget, by simpa using hst, hparse⟩
        split
        · rename_i hsid
          exact Or.inr (Or.inl ⟨session, w1, hfirst, hsid, rfl⟩)
        · rename_i hsid
          simp only []
          split
          · exact Or.inl rfl
          · split
            · exact Or.inl rfl
            · split
              · exact Or.inl rfl
              · rename_i resp2 w2 hget2 hst2 _ s2 hparse2
                exact Or.inr (Or.inr ⟨s2, ⟨session, w1, resp2, w2, hfirst, by simpa using hsid,
                  hget2, by simpa using hst2, hparse2⟩, rfl⟩)

/-- After `n` calls of `login` the stored `sid` is the initial one or one that
one of the calls stored from a session-info response. -/
theorem loginTimes_sid_stored {σ : Type} (env : Env σ) (n : Nat) : ∀ (f : FritzBox) (w : σ),
    (loginTimes env n f w).1.sid = f.sid ∨
    ∃ k, k < n ∧ StoredBy env (loginTimes env k f w).1 (loginTimes env k f w).2
      (loginTimes env n f w).1.sid := by
  induction n with
  | zero => intro f w; exact Or.inl rfl
  | succ m ih =>
    intro f w
    show (loginTimes env m (login env f w).f (login env f w).world).1.sid = f.sid ∨ _
    rcases ih (login env f w).f (login env f w).world with e | ⟨k, hk, hs⟩
    · rcases login_sid_stored env f w with e0 | hs0
      · exact Or.inl (e.trans e0)
      · refine Or.inr ⟨0, Nat.succ_pos m, ?_⟩
        show StoredBy env f w (loginTimes env m (login env f w).f (login env f w).world).1.sid
        rw [e]; exact hs0
    · exact Or.inr ⟨k + 1, Nat.succ_lt_succ hk, hs⟩

/-! ## Lemmas on trimming -/

theorem isSpace_iff (c : Char) : isSpace c = true ↔ IsWhiteSpace c := by
  simp only [isSpace, IsWhiteSpace, whiteSpaceCodePoints, Bool.or_eq_true, Bool.and_eq_true,
    decide_eq_true_eq, beq_iff_eq, List.mem_cons, List.mem_singleton, List.not_mem_nil, or_false]
  omega

theorem isSpace_false_iff (c : Char) : isSpace c = false ↔ ¬ IsWhiteSpace c := by
  rw [← isSpace_iff]; simp

/-- The characters `strings.TrimSpace` keeps. -/
theorem trimSpace_data (r : String) :
    (trimSpace r).data = ((r.data.dropWhile isSpace).reverse.dropWhile isSpace).reverse := rfl

theorem trimSpace_trimmedOf (r : String) : TrimmedOf r (trimSpace r) := by
  refine ⟨r.data.takeWhile isSpace,
    ((r.data.dropWhile isSpace).reverse.takeWhile isSpace).reverse, ?_, ?_, ?_, ?_, ?_⟩
  · rw [trimSpace_data, List.append_assoc, ← List.reverse_append,
      List.takeWhile_append_dropWhile, List.reverse_reverse, List.takeWhile_append_dropWhile]
  · intro c hc
    exact (isSpace_iff c).1 (List.mem_takeWhile_imp hc)
  · intro c hc
    exact (isSpace_iff c).1 (List.mem_takeWhile_imp (List.mem_reverse.1 hc))
  · intro c hc
    rw [trimSpace_data] at hc
    have hsplit : r.data.dropWhile isSpace
        = ((r.data.dropWhile isSpace).reverse.dropWhile isSpace).reverse
          ++ ((r.data.dropWhile isSpace).reverse.takeWhile isSpace).reverse := by
      rw [← List.reverse_append, List.takeWhile_append_dropWhile, List.reverse_reverse]
    have hhead : (r.data.dropWhile isSpace).head? = some c := by
      rw [hsplit, List.head?_append, hc]; rfl
    have := List.head?_dropWhile_not isSpace r.data
    rw [hhead] at this
    have hf : isSpace c = false := by simpa using this
    exact (isSpace_false_iff c).1 hf
  · intro c hc
    rw [trimSpace_data, List.getLast?_reverse] at hc
    have := List.head?_dropWhile_not isSpace (r.data.dropWhile isSpace).reverse
    rw [hc] at this
    have hf : isSpace c = false := by simpa using this
    exact (isSpace_false_iff c).1 hf

theorem trimmedOf_unique (r t : String) (h : TrimmedOf r t) : t = trimSpace r := by
  obtain ⟨pre, post, hr, hpre, hpost, hhead, hlast⟩ := h
  have hpre2 : ∀ c ∈ pre, isSpace c = true := fun c hc => (isSpace_iff c).2 (hpre c hc)
  have hpost2 : ∀ c ∈ post.reverse, isSpace c = true :=
    fun c hc => (isSpace_iff c).2 (hpost c (List.mem_reverse.1 hc))
  have key : (trimSpace r).data = t.data := by
    rw [trimSpace_data, hr, List.append_assoc, List.dropWhile_append_of_pos hpre2]
    cases ht : t.data with
    | nil =>
      have hall : ∀ c ∈ post, isSpace c = true := fun c hc => (isSpace_iff c).2 (hpost c hc)
      have hnil : List.dropWhile isSpace post = [] := by
        have happ : List.dropWhile isSpace (post ++ []) = List.dropWhile isSpace [] :=
          List.dropWhile_append_of_pos hall
        simpa using happ
      simp [hnil]
    | cons c rest =>
      have hc : isSpace c = false := (isSpace_false_iff c).2 (hhead c (by rw [ht]; rfl))
      have h1 : List.dropWhile isSpace (c :: rest ++ post) = c :: rest ++ post := by
        simp [List.dropWhile_cons, hc]
      rw [h1, List.reverse_append, List.dropWhile_append_of_pos hpost2]
      cases hrev : (c :: rest).reverse with
      | nil => simp at hrev
      | cons d more =>
        have hd : isSpace d = false := by
          apply (isSpace_false_iff d).2
          apply hlast d
          rw [ht, List.getLast?_eq_head?_reverse, hrev]; rfl
        have h2 : List.dropWhile isSpace (d :: more) = d :: more := by
          simp [List.dropWhile_cons, hd]
        rw [h2, ← hrev, List.reverse_reverse]
  cases t with
  | mk td =>
    cases hts : trimSpace r with
    | mk rd =>
      rw [hts] at key
      simp only at key
      rw [key]

theorem hextable_utf8Size (c : Char) (h : c ∈ hextable) : c.utf8Size = 1 := by
  simp only [hextable, List.mem_cons, List.mem_singleton, List.not_mem_nil, or_false] at h
  rcases h with h | h | h | h | h | h | h | h | h | h | h | h | h | h | h | h <;> subst h <;> rfl

theorem utf8Len_hex (l : List Char) (h : ∀ c ∈ l, c ∈ hextable) :
    String.utf8Len l = l.length := by
  induction l with
  | nil => rfl
  | cons c rest ih =>
    rw [String.utf8Len_cons, ih (fun x hx => h x (by simp [hx])), hextable_utf8Size c (by simp [h])]
    rfl

theorem utf8ByteSize_append_mk (a b : String) :
    (a ++ b).utf8ByteSize = a.utf8ByteSize + b.utf8ByteSize := by
  cases a with
  | mk as =>
    cases b with
    | mk bs =>
      show String.utf8ByteSize ⟨as ++ bs⟩ = _
      simp only [String.utf8ByteSize_mk, String.utf8Len_append]

set_option maxRecDepth 100000 in
/-- The test suite of RFC 1321, in part: the digests of the empty message, of
`abc`, and of a message of 80 digits, which takes two blocks. -/
theorem md5Sum_rfc1321 :
    hexEncodeToString (md5Sum []) = "d41d8cd98f00b204e9800998ecf8427e" ∧
    hexEncodeToString (md5Sum [0x61, 0x62, 0x63]) = "900150983cd24fb0d6963f7d28e17f72" ∧
    hexEncodeToString (md5Sum (("1234567890123456789012345678901234567890"
        ++ "1234567890123456789012345678901234567890").data.map Char.toNat))
      = "57edf4a22be3c955ac49da2e2107b67a" := by
  decide

set_option maxRecDepth 100000 in
/-- The response for challenge `1234567z` and password `geheim`. -/
theorem solveChallenge_geheim :
    solveChallenge { SID := "", Challenge := "1234567z" } "geheim"
      = "1234567z-7cbfc14544e1370d3572cad4ffd341fe" := by
  decide

set_option maxRecDepth 100000 in
/-- The worked example of the vendor's documentation of the login scheme:
challenge `1234567z`, password `äbc`. -/
theorem solveChallenge_documented_example :
    solveChallenge { SID := "", Challenge := "1234567z" } "äbc"
      = "1234567z-9e224a41eeefa284df7bb0f26c2913e2" := by
  decide

/-! ## The claims -/

/-- C1: for every challenge and password (sequences of Unicode scalar values),
`solveChallenge` on a `SessionInfo` with that challenge returns
`challenge + "-" + lowercaseHex(MD5(utf16le(challenge + "-" + password)))`, where
`utf16le` encodes scalar by scalar (a surrogate pair above U+FFFF), each code
unit low byte first; the result is the same for every `SID`; and for challenge
`"1234567z"` and password `"geheim"` it is the known response value. -/
theorem solveChallenge_spec (sid challenge password : String) :
    solveChallenge { SID := sid, Challenge := challenge } password
        = challenge ++ "-" ++ lowercaseHex (md5Sum (utf16le (challenge ++ "-" ++ password)))
    ∧ (∀ sid2 : String, solveChallenge { SID := sid, Challenge := challenge } password
        = solveChallenge { SID := sid2, Challenge := challenge } password)
    ∧ solveChallenge { SID := sid, Challenge := "1234567z" } "geheim"
        = "1234567z-7cbfc14544e1370d3572cad4ffd341fe" := by
  refine ⟨?_, fun _ => rfl, ?_⟩
  · simp only [solveChallenge, bytes_eq_utf16le, hexEncodeToString_eq]
  · exact solveChallenge_geheim

/-- C2: for every challenge and password the output of `solveChallenge` is the
challenge, one `-`, and exactly 32 characters of `0123456789abcdef`; its length
is the length of the challenge plus 33, counted in characters and in bytes. -/
theorem solveChallenge_form (s : SessionInfo) (password : String) :
    ∃ digest : List Char,
      solveChallenge s password = s.Challenge ++ "-" ++ String.mk digest ∧
      digest.length = 32 ∧
      (∀ c ∈ digest, c ∈ "0123456789abcdef".data) ∧
      (solveChallenge s password).length = s.Challenge.length + 33 ∧
      (solveChallenge s password).utf8ByteSize = s.Challenge.utf8ByteSize + 33 := by
  refine ⟨(md5Sum (convertUTF16ToLittleEndianBytes
    (utf16Encode (runes (s.Challenge ++ "-" ++ password))))).flatMap hexByte, rfl, ?_, ?_, ?_, ?_⟩
  · rw [hex_data_length, md5Sum_length]
  · exact hex_data_mem _
  · simp only [solveChallenge, hexEncodeToString, String.length_append, String.length_mk,
      hex_data_length, md5Sum_length]
    rfl
  · simp only [solveChallenge, hexEncodeToString, utf8ByteSize_append_mk, String.utf8ByteSize_mk,
      utf8Len_hex _ (hex_data_mem _), hex_data_length, md5Sum_length]
    rfl

/-- C10: for every sequence of Unicode scalar values, pairing the bytes of
`convertUTF16ToLittleEndianBytes(utf16.Encode(runes))` as little-endian 16-bit
units and UTF-16-decoding them gives the sequence back; the byte output has
twice as many bytes as there are code units, byte `2i` being the low and byte
`2i+1` the high byte of unit `i`. -/
theorem utf16le_round_trip (s : String) :
    utf16Decode (littleEndianUnits
        (convertUTF16ToLittleEndianBytes (utf16Encode (runes s)))) = runes s
    ∧ (convertUTF16ToLittleEndianBytes (utf16Encode (runes s))).length
        = 2 * (utf16Encode (runes s)).length
    ∧ ∀ i : Nat,
        (convertUTF16ToLittleEndianBytes (utf16Encode (runes s)))[2 * i]?
          = ((utf16Encode (runes s))[i]?).map (fun u => u % 256) ∧
        (convertUTF16ToLittleEndianBytes (utf16Encode (runes s)))[2 * i + 1]?
          = ((utf16Encode (runes s))[i]?).map (fun u => u / 256) := by
  refine ⟨?_, ?_, ?_⟩
  · rw [convert_eq_flatMap, littleEndianUnits_unitBytes _ (encode_units_lt s),
      encode_runes_eq, utf16Decode_specCodeUnits]
    rfl
  · rw [convert_eq_flatMap, length_flatMap_unitBytes]
  · intro i
    rw [convert_eq_flatMap]
    by_cases h : i < (utf16Encode (runes s)).length
    · have hlt : (utf16Encode (runes s))[i] < 65536 :=
        encode_units_lt s _ (List.getElem_mem _)
      have hb := getElem?_flatMap_unitBytes (utf16Encode (runes s)) i h
      have hdiv : ((utf16Encode (runes s))[i] >>> 8) % 256 = (utf16Encode (runes s))[i] / 256 := by
        rw [Nat.shiftRight_eq_div_pow]; omega
      rw [hb.1, hb.2, List.getElem?_eq_getElem h, hdiv]
      exact ⟨rfl, rfl⟩
    · have hlen := length_flatMap_unitBytes (utf16Encode (runes s))
      rw [List.getElem?_eq_none (by omega), List.getElem?_eq_none (by omega),
        List.getElem?_eq_none (by omega)]
      exact ⟨rfl, rfl⟩

/-- A run of the encoder on a string with a supplementary-plane character. -/
theorem utf16le_example :
    convertUTF16ToLittleEndianBytes (utf16Encode (runes "a😀ä"))
      = [0x61, 0x00, 0x3d, 0xd8, 0x00, 0xde, 0xe4, 0x00] := by
  decide

/-- C3: if the first session-info response has status 200 and parses to a
`SessionInfo` whose `SID` is not `"0000000000000000"`, `login` returns no error
after exactly one request (the one carrying the stored sid), and the sid of the
client afterwards is exactly the returned `SID`, the other fields being kept. -/
theorem login_adopts_valid_session {σ : Type} (env : Env σ) (f : FritzBox) (w w1 : σ)
    (resp : Response) (session : SessionInfo)
    (hget : env.get w (f.baseURL ++ "/login_sid.lua?sid=" ++ f.sid) = (.ok resp, w1))
    (hstatus : resp.StatusCode = 200)
    (hparse : parseLoginResponse env resp.Body = .ok session)
    (hsid : session.SID ≠ "0000000000000000") :
    (login env f w).err = none ∧
    (login env f w).urls = [f.baseURL ++ "/login_sid.lua?sid=" ++ f.sid] ∧
    (login env f w).urls.length = 1 ∧
    (callLogin env f w).1.sid = session.SID ∧
    (callLogin env f w).1 = { f with sid := session.SID } := by
  have h := login_first_valid env f w w1 resp session hget hstatus hparse hsid
  simp only [callLogin, h, sidURL]
  simp

/-- Witness of C3: a new client, a device answering the first request with the
session id `9c1a2b3c4d5e6f70`. -/
theorem login_adopts_valid_session_witness :
    (login scriptedEnv (New "geheim") [sessionResponse "9c1a2b3c4d5e6f70"]).err = none ∧
    (login scriptedEnv (New "geheim") [sessionResponse "9c1a2b3c4d5e6f70"]).urls
      = ["http://fritz.box" ++ "/login_sid.lua?sid=" ++ ""] ∧
    (login scriptedEnv (New "geheim") [sessionResponse "9c1a2b3c4d5e6f70"]).urls.length = 1 ∧
    (callLogin scriptedEnv (New "geheim") [sessionResponse "9c1a2b3c4d5e6f70"]).1.sid
      = "9c1a2b3c4d5e6f70" ∧
    (callLogin scriptedEnv (New "geheim") [sessionResponse "9c1a2b3c4d5e6f70"]).1
      = { New "geheim" with sid := "9c1a2b3c4d5e6f70" } :=
  login_adopts_valid_session scriptedEnv (New "geheim") [sessionResponse "9c1a2b3c4d5e6f70"] []
    { StatusCode := 200, Body := .ok (sessionDoc "9c1a2b3c4d5e6f70" "1234567z") }
    { SID := "9c1a2b3c4d5e6f70", Challenge := "1234567z" } rfl rfl rfl (by decide)

/-- C4: if the first session-info response has status 200 and parses to a
`SessionInfo` whose `SID` is `"0000000000000000"`, `login` issues exactly one
further request, two in all, and the URL of the second is
`baseURL + "/login_sid.lua?response=" + solveChallenge(session, password)`. -/
theorem login_sentinel_one_further_request {σ : Type} (env : Env σ) (f : FritzBox) (w w1 : σ)
    (resp : Response) (session : SessionInfo)
    (hget : env.get w (f.baseURL ++ "/login_sid.lua?sid=" ++ f.sid) = (.ok resp, w1))
    (hstatus : resp.StatusCode = 200)
    (hparse : parseLoginResponse env resp.Body = .ok session)
    (hsid : session.SID = "0000000000000000") :
    (login env f w).urls =
      [f.baseURL ++ "/login_sid.lua?sid=" ++ f.sid,
       f.baseURL ++ "/login_sid.lua?response=" ++ solveChallenge session f.password] ∧
    (login env f w).urls.length = 2 ∧
    (login env f w).world
      = (env.get w1 (f.baseURL ++ "/login_sid.lua?response="
          ++ solveChallenge session f.password)).2 := by
  have h := login_first_sentinel env f w w1 resp session hget hstatus hparse hsid
  rw [h]
  simp only [sidURL, responseURL]
  split
  · rename_i heq; simp [heq]
  · rename_i heq
    split
    · simp [heq]
    · split <;> simp [heq]

/-- Witness of C4: a new client with password `geheim`, a device answering the
first request with the sentinel and challenge `1234567z`. -/
theorem login_sentinel_one_further_request_witness :
    (login scriptedEnv (New "geheim")
        [sessionResponse "0000000000000000", sessionResponse "9c1a2b3c4d5e6f70"]).urls =
      ["http://fritz.box" ++ "/login_sid.lua?sid=" ++ "",
       "http://fritz.box" ++ "/login_sid.lua?response="
         ++ solveChallenge { SID := "0000000000000000", Challenge := "1234567z" } "geheim"] ∧
    (login scriptedEnv (New "geheim")
        [sessionResponse "0000000000000000", sessionResponse "9c1a2b3c4d5e6f70"]).urls.length = 2 ∧
    (login scriptedEnv (New "geheim")
        [sessionResponse "0000000000000000", sessionResponse "9c1a2b3c4d5e6f70"]).world
      = (scriptedEnv.get [sessionResponse "9c1a2b3c4d5e6f70"]
          ("http://fritz.box" ++ "/login_sid.lua?response="
            ++ solveChallenge { SID := "0000000000000000", Challenge := "1234567z" } "geheim")).2 :=
  login_sentinel_one_further_request scriptedEnv (New "geheim")
    [sessionResponse "0000000000000000", sessionResponse "9c1a2b3c4d5e6f70"]
    [sessionResponse "9c1a2b3c4d5e6f70"]
    { StatusCode := 200, Body := .ok (sessionDoc "0000000000000000" "1234567z") }
    { SID := "0000000000000000", Challenge := "1234567z" } rfl rfl rfl rfl

/-- C5: a status other than 200 makes the operation fail and leaves the sid of
the client as it was before the call: at the first session-info request and at
the second one for `login` (and for `request`, which fails with it), and at the
command request for `request`. -/
theorem status_not_200_fails {σ : Type} (env : Env σ) (f : FritzBox) (w : σ)
    (command ain : String) :
    (∀ (resp : Response) (w1 : σ),
      env.get w (sidURL f) = (.ok resp, w1) → resp.StatusCode ≠ 200 →
      (callLogin env f w).2.err = some (statusError resp.StatusCode) ∧
      (callLogin env f w).1.sid = f.sid ∧
      (callRequest env f command ain w).2.err = some (statusError resp.StatusCode) ∧
      (callRequest env f command ain w).1.sid = f.sid) ∧
    (∀ (resp : Response) (w1 : σ) (session : SessionInfo) (resp2 : Response) (w2 : σ),
      env.get w (sidURL f) = (.ok resp, w1) → resp.StatusCode = 200 →
      parseLoginResponse env resp.Body = .ok session → session.SID = "0000000000000000" →
      env.get w1 (responseURL f (solveChallenge session f.password)) = (.ok resp2, w2) →
      resp2.StatusCode ≠ 200 →
      (callLogin env f w).2.err = some (statusError resp2.StatusCode) ∧
      (callLogin env f w).1.sid = f.sid ∧
      (callRequest env f command ain w).2.err = some (statusError resp2.StatusCode) ∧
      (callRequest env f command ain w).1.sid = f.sid) ∧
    (∀ (resp3 : Response) (w3 : σ),
      (login env f w).err = none →
      env.get (login env f w).world (commandURL (login env f w).f command ain) = (.ok resp3, w3) →
      resp3.StatusCode ≠ 200 →
      (callRequest env f command ain w).2.err = some (statusError resp3.StatusCode) ∧
      (callRequest env f command ain w).2.value = "" ∧
      (callRequest env f command ain w).1.sid = f.sid) := by
  refine ⟨?_, ?_, ?_⟩
  · intro resp w1 hget hst
    have h : login env f w = ⟨some (statusError resp.StatusCode), f, w1, [sidURL f]⟩ := by
      simp [login, hget, hst]
    simp [callLogin, callRequest, request, h]
  · intro resp w1 session resp2 w2 hget hst hparse hsid hget2 hst2
    have h : login env f w = ⟨some (statusError resp2.StatusCode), f, w2,
        [sidURL f, responseURL f (solveChallenge session f.password)]⟩ := by
      rw [login_first_sentinel env f w w1 resp session hget hst hparse hsid]
      simp [hget2, hst2]
    simp [callLogin, callRequest, request, h]
  · intro resp3 w3 hlogin hget hst
    simp [callRequest, request, hlogin, hget, hst]

/-- Witness of C5: status 500 at the first request, status 403 at the second
request, status 500 at the command request. -/
theorem status_not_200_fails_witness :
    ((callLogin scriptedEnv (New "geheim") [textResponse 500 ""]).2.err
        = some (statusError 500) ∧
      (callLogin scriptedEnv (New "geheim") [textResponse 500 ""]).1.sid = (New "geheim").sid ∧
      (callRequest scriptedEnv (New "geheim") "gettemperature" "0815"
        [textResponse 500 ""]).2.err = some (statusError 500) ∧
      (callRequest scriptedEnv (New "geheim") "gettemperature" "0815"
        [textResponse 500 ""]).1.sid = (New "geheim").sid) ∧
    ((callLogin scriptedEnv (New "geheim")
        [sessionResponse "0000000000000000", textResponse 403 ""]).2.err
        = some (statusError 403) ∧
      (callLogin scriptedEnv (New "geheim")
        [sessionResponse "0000000000000000", textResponse 403 ""]).1.sid = (New "geheim").sid ∧
      (callRequest scriptedEnv (New "geheim") "gettemperature" "0815"
        [sessionResponse "0000000000000000", textResponse 403 ""]).2.err
        = some (statusError 403) ∧
      (callRequest scriptedEnv (New "geheim") "gettemperature" "0815"
        [sessionResponse "0000000000000000", textResponse 403 ""]).1.sid = (New "geheim").sid) ∧
    ((callRequest scriptedEnv (New "geheim") "gettemperature" "0815"
        [sessionResponse "9c1a2b3c4d5e6f70", textResponse 500 ""]).2.err
        = some (statusError 500) ∧
      (callRequest scriptedEnv (New "geheim") "gettemperature" "0815"
        [sessionResponse "9c1a2b3c4d5e6f70", textResponse 500 ""]).2.value = "" ∧
      (callRequest scriptedEnv (New "geheim") "gettemperature" "0815"
        [sessionResponse "9c1a2b3c4d5e6f70", textResponse 500 ""]).1.sid = (New "geheim").sid) :=
  ⟨(status_not_200_fails scriptedEnv (New "geheim") [textResponse 500 ""]
      "gettemperature" "0815").1 { StatusCode := 500, Body := .ok "" } [] rfl (by decide),
   (status_not_200_fails scriptedEnv (New "geheim")
      [sessionResponse "0000000000000000", textResponse 403 ""] "gettemperature" "0815").2.1
      { StatusCode := 200, Body := .ok (sessionDoc "0000000000000000" "1234567z") }
      [textResponse 403 ""] { SID := "0000000000000000", Challenge := "1234567z" }
      { StatusCode := 403, Body := .ok "" } [] rfl rfl rfl rfl rfl (by decide),
   (status_not_200_fails scriptedEnv (New "geheim")
      [sessionResponse "9c1a2b3c4d5e6f70", textResponse 500 ""] "gettemperature" "0815").2.2
      { StatusCode := 500, Body := .ok "" } [] (by decide) rfl (by decide)⟩

/-- C8: when `login` succeeds and the command request returns status 200 with a
fully readable body `r`, there is exactly one string `t` that is `r` trimmed of
surrounding white space, and `request` fails (with the error `invalid value`)
exactly when `t` is `inval`, and otherwise returns `t` and no error; a value
returned without error is never `inval`. -/
theorem request_inval {σ : Type} (env : Env σ) (f : FritzBox) (command ain : String) (w w3 : σ)
    (resp : Response) (r : String)
    (hlogin : (login env f w).err = none)
    (hget : env.get (login env f w).world (commandURL (login env f w).f command ain)
      = (.ok resp, w3))
    (hstatus : resp.StatusCode = 200)
    (hbody : resp.Body = .ok r) :
    ∃ t : String, TrimmedOf r t ∧ (∀ t2 : String, TrimmedOf r t2 → t2 = t) ∧
      ((request env f command ain w).err ≠ none ↔ t = "inval") ∧
      (t = "inval" →
        (request env f command ain w).err = some "invalid value" ∧
        (request env f command ain w).value = "") ∧
      (t ≠ "inval" →
        (request env f command ain w).err = none ∧
        (request env f command ain w).value = t) ∧
      ((request env f command ain w).err = none →
        (request env f command ain w).value ≠ "inval") := by
  refine ⟨trimSpace r, trimSpace_trimmedOf r, fun t2 h2 => trimmedOf_unique r t2 h2, ?_⟩
  by_cases hb : trimSpace r = "inval"
  · simp [request, hlogin, hget, hstatus, hbody, hb]
  · simp [request, hlogin, hget, hstatus, hbody, hb]

/-- Witness of C8: the device accepts the session and answers the command with
the body `" inval\n"`, of which `inval` is the trimmed form: `request` fails
with `invalid value`. -/
theorem request_inval_witness :
    (request scriptedEnv (New "geheim") "gettemperature" "0815"
      [sessionResponse "9c1a2b3c4d5e6f70", textResponse 200 " inval\n"]).err
      = some "invalid value" ∧
    (request scriptedEnv (New "geheim") "gettemperature" "0815"
      [sessionResponse "9c1a2b3c4d5e6f70", textResponse 200 " inval\n"]).value = "" := by
  obtain ⟨t, _, huniq, _, hinval, _, _⟩ :=
    request_inval scriptedEnv (New "geheim") "gettemperature" "0815"
      [sessionResponse "9c1a2b3c4d5e6f70", textResponse 200 " inval\n"] []
      { StatusCode := 200, Body := .ok " inval\n" } " inval\n" (by decide) rfl rfl rfl
  have ht : "inval" = t :=
    huniq "inval" ⟨[' '], ['\n'], rfl, by decide, by decide, by decide, by decide⟩
  exact hinval ht.symm

/-- A run of `request` on a telemetry body with surrounding white space: the
value returned is the body without it. -/
theorem request_trims_example :
    (request scriptedEnv (New "geheim") "gettemperature" "0815"
      [sessionResponse "9c1a2b3c4d5e6f70", textResponse 200 "\t 215 \r\n"]).value = "215" ∧
    (request scriptedEnv (New "geheim") "gettemperature" "0815"
      [sessionResponse "9c1a2b3c4d5e6f70", textResponse 200 "\t 215 \r\n"]).err = none := by
  decide

/-- C9: when the first session-info response carries the sentinel and the
second response has status 200 and parses, `login` returns no error and the sid
of the client is the `SID` of the second response, whatever it is. -/
theorem login_stores_second_sid {σ : Type} (env : Env σ) (f : FritzBox) (w w1 w2 : σ)
    (resp resp2 : Response) (session newSessionInfo : SessionInfo)
    (hget : env.get w (sidURL f) = (.ok resp, w1))
    (hstatus : resp.StatusCode = 200)
    (hparse : parseLoginResponse env resp.Body = .ok session)
    (hsid : session.SID = "0000000000000000")
    (hget2 : env.get w1 (responseURL f (solveChallenge session f.password)) = (.ok resp2, w2))
    (hstatus2 : resp2.StatusCode = 200)
    (hparse2 : parseLoginResponse env resp2.Body = .ok newSessionInfo) :
    (callLogin env f w).2.err = none ∧
    (callLogin env f w).1.sid = newSessionInfo.SID ∧
    (newSessionInfo.SID = "0000000000000000" → (callLogin env f w).1.sid = "0000000000000000") := by
  have h := login_first_sentinel env f w w1 resp session hget hstatus hparse hsid
  simp only [hget2, hstatus2, hparse2] at h
  simp [callLogin, h]

/-- Witness of C9: the device answers both requests with the sentinel (the
credentials are rejected); `login` reports no error and stores the sentinel. -/
theorem login_stores_second_sid_witness :
    (callLogin scriptedEnv (New "wrong")
      [sessionResponse "0000000000000000", sessionResponse "0000000000000000"]).2.err = none ∧
    (callLogin scriptedEnv (New "wrong")
      [sessionResponse "0000000000000000", sessionResponse "0000000000000000"]).1.sid
      = "0000000000000000" ∧
    ("0000000000000000" = "0000000000000000" →
      (callLogin scriptedEnv (New "wrong")
        [sessionResponse "0000000000000000", sessionResponse "0000000000000000"]).1.sid
        = "0000000000000000") :=
  login_stores_second_sid scriptedEnv (New "wrong")
    [sessionResponse "0000000000000000", sessionResponse "0000000000000000"]
    [sessionResponse "0000000000000000"] []
    { StatusCode := 200, Body := .ok (sessionDoc "0000000000000000" "1234567z") }
    { StatusCode := 200, Body := .ok (sessionDoc "0000000000000000" "1234567z") }
    { SID := "0000000000000000", Challenge := "1234567z" }
    { SID := "0000000000000000", Challenge := "1234567z" } rfl rfl rfl rfl rfl rfl rfl

theorem scriptedEnv_tokens (w0 : List (Except String Response)) (url : String) (resp : Response)
    (w1 : List (Except String Response)) (s : SessionInfo)
    (_hget : scriptedEnv.get w0 url = (.ok resp, w1)) (_hstatus : resp.StatusCode = 200)
    (hparse : parseLoginResponse scriptedEnv resp.Body = .ok s) : isSessionToken s.SID := by
  unfold parseLoginResponse at hparse
  split at hparse
  · cases hparse
  · simp only [scriptedEnv, sampleUnmarshal] at hparse
    split at hparse
    · cases hparse
    · rename_i h
      split at h
      · cases h; cases hparse; decide
      · split at h
        · cases h; cases hparse; decide
        · cases h

set_option maxRecDepth 100000 in
/-- C6, refuted as stated: after one `login` of a new client against a device
that rejects the credentials the stored sid is the sentinel, and against a
device whose `SID` element is not a session id the stored sid is that text;
neither is empty or a 16-digit hexadecimal string other than the sentinel. -/
theorem sid_invariant_counterexample :
    ¬ specSidInvariant (loginTimes scriptedEnv 1 (New "wrong")
        [sessionResponse "0000000000000000", sessionResponse "0000000000000000"]).1.sid ∧
    ¬ specSidInvariant (loginTimes oddEnv 1 (New "geheim")
        [sessionResponse "not-a-session-id"]).1.sid := by
  decide

/-- C6, amended: take a client built by `New` and any number of `login` calls,
and suppose every `SID` carried by the session-info responses those calls
receive (status 200, parsed) is a string of 16 hexadecimal characters. Then the
sid of the client is empty, or it is a string of 16 hexadecimal characters that
one of the calls stored, from a first response whose `SID` is not the sentinel
or from a second response; it is the sentinel only if one of the calls received
the sentinel in its second response (a rejected login). -/
theorem sid_invariant_amended {σ : Type} (env : Env σ) (password : String) (w : σ) (n : Nat)
    (hdev : ∀ k, k < n → ∀ sid : String,
      ReceivedSID env (loginTimes env k (New password) w).1
        (loginTimes env k (New password) w).2 sid → isSessionToken sid) :
    (loginTimes env n (New password) w).1.sid = "" ∨
    (isSessionToken (loginTimes env n (New password) w).1.sid ∧
     (∃ k, k < n ∧ StoredBy env (loginTimes env k (New password) w).1
        (loginTimes env k (New password) w).2 (loginTimes env n (New password) w).1.sid) ∧
     ((loginTimes env n (New password) w).1.sid = "0000000000000000" →
        ∃ k, k < n ∧ ∃ s2 : SessionInfo,
          SecondAnswer env (loginTimes env k (New password) w).1
            (loginTimes env k (New password) w).2 s2 ∧ s2.SID = "0000000000000000")) := by
  rcases loginTimes_sid_stored env n (New password) w with e | ⟨k, hk, hs⟩
  · exact Or.inl e
  · refine Or.inr ⟨?_, ⟨k, hk, hs⟩, ?_⟩
    · apply hdev k hk
      rcases hs with ⟨session, w1, hfirst, _, e⟩ | h2
      · exact Or.inl ⟨session, w1, hfirst, e⟩
      · exact Or.inr h2
    · intro hsent
      rcases hs with ⟨session, w1, _, hne, e⟩ | ⟨s2, h2, e⟩
      · exact absurd (e.trans hsent) hne
      · exact ⟨k, hk, s2, h2, e.trans hsent⟩

set_option maxRecDepth 100000 in
/-- Witness of the amended C6: two `login` calls against the scripted device.
The first is accepted; the second finds the session expired and is rejected,
which leaves the sentinel in the client. -/
theorem sid_invariant_amended_witness :
    (loginTimes scriptedEnv 2 (New "geheim")
      [sessionResponse "0000000000000000", sessionResponse "9c1a2b3c4d5e6f70",
       sessionResponse "0000000000000000", sessionResponse "0000000000000000"]).1.sid = "" ∨
    (isSessionToken (loginTimes scriptedEnv 2 (New "geheim")
      [sessionResponse "0000000000000000", sessionResponse "9c1a2b3c4d5e6f70",
       sessionResponse "0000000000000000", sessionResponse "0000000000000000"]).1.sid ∧
     (∃ k, k < 2 ∧ StoredBy scriptedEnv
        (loginTimes scriptedEnv k (New "geheim")
          [sessionResponse "0000000000000000", sessionResponse "9c1a2b3c4d5e6f70",
           sessionResponse "0000000000000000", sessionResponse "0000000000000000"]).1
        (loginTimes scriptedEnv k (New "geheim")
          [sessionResponse "0000000000000000", sessionResponse "9c1a2b3c4d5e6f70",
           sessionResponse "0000000000000000", sessionResponse "0000000000000000"]).2
        (loginTimes scriptedEnv 2 (New "geheim")
          [sessionResponse "0000000000000000", sessionResponse "9c1a2b3c4d5e6f70",
           sessionResponse "0000000000000000", sessionResponse "0000000000000000"]).1.sid) ∧
     ((loginTimes scriptedEnv 2 (New "geheim")
        [sessionResponse "0000000000000000", sessionResponse "9c1a2b3c4d5e6f70",
         sessionResponse "0000000000000000", sessionResponse "0000000000000000"]).1.sid
        = "0000000000000000" →
        ∃ k, k < 2 ∧ ∃ s2 : SessionInfo,
          SecondAnswer scriptedEnv
            (loginTimes scriptedEnv k (New "geheim")
              [sessionResponse "0000000000000000", sessionResponse "9c1a2b3c4d5e6f70",
               sessionResponse "0000000000000000", sessionResponse "0000000000000000"]).1
            (loginTimes scriptedEnv k (New "geheim")
              [sessionResponse "0000000000000000", sessionResponse "9c1a2b3c4d5e6f70",
               sessionResponse "0000000000000000", sessionResponse "0000000000000000"]).2 s2 ∧
          s2.SID = "0000000000000000")) :=
  sid_invariant_amended scriptedEnv "geheim"
    [sessionResponse "0000000000000000", sessionResponse "9c1a2b3c4d5e6f70",
     sessionResponse "0000000000000000", sessionResponse "0000000000000000"] 2
    (fun _ _ _ h => by
      rcases h with ⟨_, _, ⟨_, hg, hs, hp⟩, e⟩ | ⟨_, ⟨_, _, _, _, _, _, hg, hs, hp⟩, e⟩
      · exact e ▸ scriptedEnv_tokens _ _ _ _ _ hg hs hp
      · exact e ▸ scriptedEnv_tokens _ _ _ _ _ hg hs hp)

set_option maxRecDepth 100000 in
/-- The run of the witness above, evaluated: after the first call the client
holds the session id the device handed out, after the second the sentinel. -/
theorem loginTimes_example :
    (loginTimes scriptedEnv 1 (New "geheim")
      [sessionResponse "0000000000000000", sessionResponse "9c1a2b3c4d5e6f70",
       sessionResponse "0000000000000000", sessionResponse "0000000000000000"]).1.sid
      = "9c1a2b3c4d5e6f70" ∧
    (loginTimes scriptedEnv 2 (New "geheim")
      [sessionResponse "0000000000000000", sessionResponse "9c1a2b3c4d5e6f70",
       sessionResponse "0000000000000000", sessionResponse "0000000000000000"]).1.sid
      = "0000000000000000" := by
  decide

set_option maxRecDepth 100000 in
/-- C7, evaluated on the code: a new client calls `request`; the device hands
out the session id `9c1a2b3c4d5e6f70` during the login step and answers the
command. The call succeeds and the callee's copy holds the new session id, but
the caller's client still has the empty sid, and the next call on it sends the
empty sid in its first session-info request. -/
theorem request_drops_session_id :
    (callRequest scriptedEnv (New "geheim") "gettemperature" "0815"
      [sessionResponse "0000000000000000", sessionResponse "9c1a2b3c4d5e6f70",
       textResponse 200 "215\n"]).2.err = none ∧
    (callRequest scriptedEnv (New "geheim") "gettemperature" "0815"
      [sessionResponse "0000000000000000", sessionResponse "9c1a2b3c4d5e6f70",
       textResponse 200 "215\n"]).2.value = "215" ∧
    (callRequest scriptedEnv (New "geheim") "gettemperature" "0815"
      [sessionResponse "0000000000000000", sessionResponse "9c1a2b3c4d5e6f70",
       textResponse 200 "215\n"]).2.receiver.sid = "9c1a2b3c4d5e6f70" ∧
    (callRequest scriptedEnv (New "geheim") "gettemperature" "0815"
      [sessionResponse "0000000000000000", sessionResponse "9c1a2b3c4d5e6f70",
       textResponse 200 "215\n"]).1.sid = "" ∧
    (callRequest scriptedEnv
      (callRequest scriptedEnv (New "geheim") "gettemperature" "0815"
        [sessionResponse "0000000000000000", sessionResponse "9c1a2b3c4d5e6f70",
         textResponse 200 "215\n"]).1
      "gettemperature" "0815"
      [sessionResponse "9c1a2b3c4d5e6f70", textResponse 200 "215\n"]).2.urls.head?
      = some "http://fritz.box/login_sid.lua?sid=" := by
  decide

end fritzBox
